import Mathlib

/-
  Verification of the hand-gesture control core of the pocket-zen-garden
  repository.

  The source has two controller designs side by side:
  * a command-callback controller (second variant of
    HandGestureController.tsx): per detection cycle it reads the 21 hand
    landmarks and emits ROTATE, TOGGLE_THEME, WATER and ZOOM commands to
    the scene consumer (ZenGarden via page.tsx);
  * a frame-delivery controller (first variant): per cycle it delivers a
    HandFrame and fires edge-triggered audio cues (grab / release / magic /
    wind), with a 150 ms hand-lost timeout emitting a neutral frame.

  Coordinates and times are modelled as rationals.  JavaScript's
  Math.hypot comparisons are embedded by comparing squared distances: for
  nonnegative squared distances a and b, sqrt a > 1.2 * sqrt b holds
  exactly when 25 * a > 36 * b (sqrt is strictly monotone on
  nonnegatives); the lemma sqrt_ratio_iff below records this.
  An out-of-range JavaScript array index yields undefined, and the
  following property access throws a TypeError; we embed that as
  Except.error, carrying the commands already emitted before the crash
  point, since onGesture callbacks fired before the throw have already
  reached the consumer.
-/

/-- One tracked hand landmark: a 2D point in normalized image space.
The source only ever reads the x and y fields. -/
structure Landmark where
  x : ℚ
  y : ℚ
  deriving DecidableEq, Repr

/-- Squared Euclidean distance between two landmarks; the squared form of
the source's Math.hypot(a.x - b.x, a.y - b.y). -/
def distSq (a b : Landmark) : ℚ :=
  (a.x - b.x) ^ 2 + (a.y - b.y) ^ 2

/-- Source test dTip > dPip * 1.2 (HandGestureController line 312), stated
on squared distances: 25 * dTip ^ 2 > 36 * dPip ^ 2. -/
def isFingerExtended (tip pip wrist : Landmark) : Bool :=
  decide (36 * distSq pip wrist < 25 * distSq tip wrist)

/-- The (tip, pip) landmark index pairs of the source's loop: tips
[8, 12, 16, 20] and pips [6, 10, 14, 18] (thumb excluded). -/
def fingerPairs : List (Nat × Nat) := [(8, 6), (12, 10), (16, 14), (20, 18)]

/-- JavaScript array indexing followed by a property access: an
out-of-range index yields undefined, and reading .x of undefined throws.
We model the throwing access as Except.error. -/
def getL (lms : List Landmark) (i : Nat) : Except Unit Landmark :=
  match lms.get? i with
  | some l => Except.ok l
  | none => Except.error ()

/-- The landmark at an index, defaulting to the origin; used to state
properties of full 21-point hands, where the default is never reached. -/
def lmAt (lms : List Landmark) (i : Nat) : Landmark :=
  (lms.get? i).getD ⟨0, 0⟩

/-- The source's fingersFolded loop (lines 307-316): walks the four
(tip, pip) pairs and breaks with false as soon as one finger tests
extended; returns true when none does.  Accessing a missing landmark
crashes (Except.error). -/
def foldedLoop (lms : List Landmark) (wrist : Landmark) :
    List (Nat × Nat) → Except Unit Bool
  | [] => Except.ok true
  | (ti, pj) :: rest =>
    match getL lms ti with
    | Except.error _ => Except.error ()
    | Except.ok tip =>
      match getL lms pj with
      | Except.error _ => Except.error ()
      | Except.ok pip =>
        if isFingerExtended tip pip wrist then Except.ok false
        else foldedLoop lms wrist rest

/-- The fist flag of a cycle: wrist is landmark 0, then the folded loop. -/
def fingersFolded (lms : List Landmark) : Except Unit Bool :=
  match getL lms 0 with
  | Except.error _ => Except.error ()
  | Except.ok wrist => foldedLoop lms wrist fingerPairs

/-- Rotation value from the wrist x position (lines 290-298): dead-zone of
0.1 around the center 0.5, otherwise (0.5 - x) * 4 (mirrored feed). -/
def rotationValue (wristX : ℚ) : ℚ :=
  if 1 / 10 < abs (wristX - 1 / 2) then (1 / 2 - wristX) * 4 else 0

/-- Commands the command-callback controller emits to the scene. -/
inductive Cmd where
  | rotate (v : ℚ)
  | toggleTheme
  | water (v : ℚ)
  | zoom (v : ℚ)
  deriving DecidableEq, Repr

/-- The controller's fist latch state (isFistRef, fistTriggeredRef). -/
structure FistLatch where
  isFist : Bool
  fistTriggered : Bool
  deriving DecidableEq, Repr

/-- Fist latch step (lines 318-334): on a folded hand, a rising edge of
the latch fires TOGGLE_THEME once; an open hand resets both flags. -/
def fistStep (folded : Bool) (st : FistLatch) : List Cmd × FistLatch :=
  if folded then
    if !st.isFist then
      if !st.fistTriggered then ([Cmd.toggleTheme], ⟨true, true⟩)
      else ([], ⟨true, st.fistTriggered⟩)
    else ([], st)
  else ([], ⟨false, false⟩)

/-- Zoom commands from the thumb-tip / index-tip squared distance (lines
357-369): squared thresholds 0.05 ^ 2 = 1/400 and 0.15 ^ 2 = 9/400. -/
def zoomCommands (thumbTip indexTip : Landmark) : List Cmd :=
  if distSq thumbTip indexTip < 1 / 400 then [Cmd.zoom (1 / 10)]
  else if 9 / 400 < distSq thumbTip indexTip then [Cmd.zoom (-(1 / 10))]
  else []

/-- One hand-detected cycle of the command-callback predictWebcam body
(lines 284-369), in source order: rotation from wrist x (emitted
unconditionally, before fist detection), the fist latch with its theme
toggle, watering on an open hand held high, then pinch zoom.  A missing
landmark access throws; the error carries the commands already emitted
before the crash. -/
def gestureCycle (lms : List Landmark) (st : FistLatch) :
    Except (List Cmd) (List Cmd × FistLatch) :=
  match getL lms 0 with
  | Except.error _ => Except.error []
  | Except.ok wrist =>
    match foldedLoop lms wrist fingerPairs with
    | Except.error _ => Except.error [Cmd.rotate (rotationValue wrist.x)]
    | Except.ok folded =>
      match getL lms 4, getL lms 8 with
      | Except.ok thumbTip, Except.ok indexTip =>
        Except.ok
          ([Cmd.rotate (rotationValue wrist.x)] ++ (fistStep folded st).1 ++
            (if folded = false ∧ wrist.y < 3 / 10 then [Cmd.water (1 / 50)] else []) ++
            zoomCommands thumbTip indexTip,
          (fistStep folded st).2)
      | _, _ =>
        Except.error
          ([Cmd.rotate (rotationValue wrist.x)] ++ (fistStep folded st).1 ++
            (if folded = false ∧ wrist.y < 3 / 10 then [Cmd.water (1 / 50)] else []))

/-- Recogniser for zoom commands, used to count zoom impulses per cycle. -/
def isZoomCmd : Cmd → Bool
  | Cmd.zoom _ => true
  | _ => false

/-- The frame-delivery controller's classified hand state for one cycle. -/
structure HandFrame where
  x : ℚ
  y : ℚ
  roll : ℚ
  pinch : Bool
  fist : Bool
  peace : Bool
  deriving DecidableEq, Repr

/-- The neutral frame emitted on hand loss (lines 19-26). -/
def NEUTRAL_FRAME : HandFrame :=
  { x := 1 / 2, y := 1 / 2, roll := 0, pinch := false, fist := false, peace := false }

/-- Hand-lost timeout in milliseconds (line 28). -/
def HAND_LOST_TIMEOUT_MS : ℚ := 150

/-- Mutable controller state of the frame-delivery design: previous-cycle
gesture flags, hand presence, and the last-hand-seen timestamp. -/
structure TrackerState where
  prevPinch : Bool
  prevFist : Bool
  prevPeace : Bool
  handPresent : Bool
  lastHandSeen : ℚ
  deriving DecidableEq, Repr

/-- Observable output of one detection cycle: which audio triggers were
invoked, and the frame (if any) delivered to onHandFrame. -/
structure CycleOutput where
  grab : Bool
  release : Bool
  magic : Bool
  wind : Bool
  emitted : Option HandFrame
  deriving DecidableEq, Repr

/-- One cycle of the frame-delivery predictWebcam (lines 116-153).  With a
hand detected: edge-triggered audio cues against the previous-cycle flags
(grab and release are an if / else-if pair), the previous flags then take
the current frame's values, presence and last-seen are refreshed, and the
frame is delivered.  With no hand: only when the hand was present and the
time since it was last seen strictly exceeds HAND_LOST_TIMEOUT_MS does the
controller clear presence, bulk-reset the three previous flags and deliver
the neutral frame; otherwise nothing is emitted. -/
def predictTick (s : TrackerState) (t : ℚ) (det : Option HandFrame) :
    TrackerState × CycleOutput :=
  match det with
  | some frame =>
    ({ prevPinch := frame.pinch, prevFist := frame.fist, prevPeace := frame.peace,
       handPresent := true, lastHandSeen := t },
     { grab := frame.pinch && !s.prevPinch,
       release := !frame.pinch && s.prevPinch,
       magic := frame.fist && !s.prevFist,
       wind := frame.peace && !s.prevPeace,
       emitted := some frame })
  | none =>
    if s.handPresent = true ∧ HAND_LOST_TIMEOUT_MS < t - s.lastHandSeen then
      ({ prevPinch := false, prevFist := false, prevPeace := false,
         handPresent := false, lastHandSeen := s.lastHandSeen },
       { grab := false, release := false, magic := false, wind := false,
         emitted := some NEUTRAL_FRAME })
    else
      (s, { grab := false, release := false, magic := false, wind := false,
            emitted := none })

/-- Run a list of detection cycles (timestamp, detection result) in order,
collecting the per-cycle outputs. -/
def runCycles (s : TrackerState) :
    List (ℚ × Option HandFrame) → TrackerState × List CycleOutput
  | [] => (s, [])
  | c :: cs =>
    let step := predictTick s c.1 c.2
    let rest := runCycles step.1 cs
    (rest.1, step.2 :: rest.2)

/-- Number of cycles in which the neutral frame was delivered. -/
def countNeutral (outs : List CycleOutput) : Nat :=
  (outs.filter (fun o => decide (o.emitted = some NEUTRAL_FRAME))).length

/-- Modelled from the spec: the throttle utility useThrottledCallback
(hooks/useThrottledCallback.ts) is referenced by the audio-feedback hook
but its implementation is not among the sources; per spec section 4.5 the
wrapper passes the first call through immediately and drops (neither
queues nor delays) any call arriving within T ms of the last accepted
call.  The state is the timestamp of the last accepted call. -/
def throttleStep (T : ℚ) (last : Option ℚ) (t : ℚ) : Bool × Option ℚ :=
  match last with
  | none => (true, some t)
  | some l => if t - l < T then (false, some l) else (true, some t)

/-- Modelled from the spec: run the throttle over a sequence of call
timestamps, returning the timestamps of the calls that fired. -/
def throttleRun (T : ℚ) (last : Option ℚ) : List ℚ → List ℚ
  | [] => []
  | t :: rest =>
    let step := throttleStep T last t
    if step.1 then t :: throttleRun T step.2 rest else throttleRun T step.2 rest

/-- Per-gesture cooldown windows in milliseconds. -/
structure ThrottleMs where
  grab : ℚ
  magic : ℚ
  wind : ℚ
  deriving DecidableEq, Repr

/-- Source constant THROTTLE_MS = \x7b grab: 200, magic: 300, wind: 500 \x7d
from the audio-feedback hook. -/
def THROTTLE_MS : ThrottleMs := ⟨200, 300, 500⟩

/-- One zoom application of ZenGarden's animate loop (lines 334-343):
a nonzero pending delta moves the camera z and clamps it to [2, 12]. -/
def animateZoomStep (z : ℚ) (delta : ℚ) : ℚ :=
  if delta ≠ 0 then max 2 (min 12 (z - delta)) else z

/-- Initial camera z position (camera.position.set(0, 2, 7), line 55). -/
def INITIAL_CAMERA_Z : ℚ := 7

/-- Camera z after a sequence of animation-step zoom deltas. -/
def runZoom (z : ℚ) (ds : List ℚ) : ℚ :=
  ds.foldl animateZoomStep z

/-- Sample full hand for witnesses: 21 coincident points. -/
def sampleHand : List Landmark := List.replicate 21 ⟨0, 0⟩

/-- Fist-posed hand in the lower screen half with the wrist far left:
all 21 landmarks coincide at (0.2, 0.8), so every finger tests folded. -/
def fistHandLow : List Landmark := List.replicate 21 ⟨1 / 5, 4 / 5⟩

/-- Fist-posed hand in the lower screen half with the wrist inside the
rotation dead-zone: all 21 landmarks coincide at (0.45, 0.9). -/
def fistHandLower : List Landmark := List.replicate 21 ⟨9 / 20, 9 / 10⟩

/-- Malformed landmark set with only 5 of the 21 points. -/
def shortHand : List Landmark := List.replicate 5 ⟨1 / 2, 1 / 2⟩

/-- Hand whose thumb-tip / index-tip distance (0.1) lies in the zoom dead
gap between 0.05 and 0.15: landmark 8 is (0.1, 0), the others (0, 0). -/
def gapHand : List Landmark :=
  List.replicate 8 ⟨0, 0⟩ ++ ⟨1 / 10, 0⟩ :: List.replicate 12 ⟨0, 0⟩

/-- Sample frame with the pinch flag off. -/
def frOff : HandFrame :=
  { x := 1 / 2, y := 1 / 2, roll := 0, pinch := false, fist := false, peace := false }

/-- Sample frame with the pinch flag on. -/
def frOn : HandFrame :=
  { x := 1 / 2, y := 1 / 2, roll := 0, pinch := true, fist := false, peace := false }

/-- Justification that the squared comparison is the hypot comparison: for
nonnegative squared distances a and b, sqrt a > (6/5) * sqrt b exactly
when 25 * a > 36 * b. -/
theorem sqrt_ratio_iff (a b : ℝ) (hb : 0 ≤ b) :
    (6 / 5) * Real.sqrt b < Real.sqrt a ↔ 36 * b < 25 * a := by
  have h65 : (6 / 5 : ℝ) = Real.sqrt (36 / 25) := by
    rw [show (36 / 25 : ℝ) = (6 / 5) ^ 2 by norm_num,
      Real.sqrt_sq (by norm_num : (0:ℝ) ≤ 6 / 5)]
  rw [h65, ← Real.sqrt_mul (by norm_num : (0:ℝ) ≤ 36 / 25) b,
    Real.sqrt_lt_sqrt_iff (by positivity)]
  constructor <;> intro h <;> linarith

/-- A successful landmark access below the list length returns the element. -/
theorem getL_eq_lmAt (lms : List Landmark) (i : Nat) (h : i < lms.length) :
    getL lms i = Except.ok (lmAt lms i) := by
  obtain ⟨x, hx⟩ : ∃ x, lms.get? i = some x := by
    rw [List.get?_eq_getElem?]
    exact ⟨lms[i], List.getElem?_eq_getElem h⟩
  unfold getL lmAt
  rw [hx]
  rfl

/-- The folded loop on in-range index pairs succeeds, and returns true
exactly when no listed finger tests extended. -/
theorem foldedLoop_ok (lms : List Landmark) (wrist : Landmark)
    (ps : List (Nat × Nat))
    (hps : ∀ pr ∈ ps, pr.1 < lms.length ∧ pr.2 < lms.length) :
    ∃ b : Bool, foldedLoop lms wrist ps = Except.ok b ∧
      (b = true ↔ ∀ pr ∈ ps,
        isFingerExtended (lmAt lms pr.1) (lmAt lms pr.2) wrist = false) := by
  induction ps with
  | nil => exact ⟨true, rfl, by simp⟩
  | cons hd tl ih =>
    obtain ⟨ti, pj⟩ := hd
    obtain ⟨h1, h2⟩ := hps (ti, pj) (List.mem_cons_self _ _)
    obtain ⟨b, hb, hiff⟩ := ih (fun pr hpr => hps pr (List.mem_cons_of_mem _ hpr))
    by_cases hext : isFingerExtended (lmAt lms ti) (lmAt lms pj) wrist = true
    · refine ⟨false, ?_, ?_⟩
      · simp [foldedLoop, getL_eq_lmAt _ _ h1, getL_eq_lmAt _ _ h2, hext]
      · simp only [List.forall_mem_cons]
        simp [hext]
    · have hextf : isFingerExtended (lmAt lms ti) (lmAt lms pj) wrist = false := by
        simpa using hext
      refine ⟨b, ?_, ?_⟩
      · simp [foldedLoop, getL_eq_lmAt _ _ h1, getL_eq_lmAt _ _ h2, hextf, hb]
      · simp only [List.forall_mem_cons]
        simp [hextf, hiff]

/-- C1: for every 21-landmark set, the fist flag (fingersFolded) is
computed without error, and it is true exactly when no non-thumb finger
(index, middle, ring, pinky: the pairs of fingerPairs) is extended, a
finger counting as extended exactly when the distance from its tip to the
wrist exceeds 1.2 times the distance from its PIP to the wrist.  In
particular, if all four fingertips satisfy the ratio test the fist flag is
false, and if none does it is true. -/
theorem fist_iff_no_finger_extended (lms : List Landmark)
    (h : lms.length = 21) :
    ∃ folded : Bool, fingersFolded lms = Except.ok folded ∧
      (folded = true ↔ ∀ pr ∈ fingerPairs,
        isFingerExtended (lmAt lms pr.1) (lmAt lms pr.2) (lmAt lms 0)
          = false) := by
  have h0 : (0 : Nat) < lms.length := by omega
  have hps : ∀ pr ∈ fingerPairs, pr.1 < lms.length ∧ pr.2 < lms.length := by
    intro pr hpr
    fin_cases hpr <;> simp [h]
  obtain ⟨b, hb, hiff⟩ := foldedLoop_ok lms (lmAt lms 0) fingerPairs hps
  refine ⟨b, ?_, hiff⟩
  simp [fingersFolded, getL_eq_lmAt _ _ h0, hb]

/-- Witness for C1 at a concrete 21-point hand. -/
theorem fist_iff_no_finger_extended_witness :
    sampleHand.length = 21 ∧
      ∃ folded : Bool, fingersFolded sampleHand = Except.ok folded ∧
        (folded = true ↔ ∀ pr ∈ fingerPairs,
          isFingerExtended (lmAt sampleHand pr.1) (lmAt sampleHand pr.2)
            (lmAt sampleHand 0) = false) :=
  ⟨by decide, fist_iff_no_finger_extended sampleHand (by decide)⟩

/-- Inversion of a successful gesture cycle: the landmark accesses all
succeeded and the emitted command list is rotation, then the fist latch
commands, then watering, then zoom. -/
theorem gestureCycle_ok_inv (lms : List Landmark) (st : FistLatch)
    (cmds : List Cmd) (st' : FistLatch)
    (hok : gestureCycle lms st = Except.ok (cmds, st')) :
    ∃ wrist folded thumbTip indexTip,
      getL lms 0 = Except.ok wrist ∧
      foldedLoop lms wrist fingerPairs = Except.ok folded ∧
      getL lms 4 = Except.ok thumbTip ∧
      getL lms 8 = Except.ok indexTip ∧
      st' = (fistStep folded st).2 ∧
      cmds = [Cmd.rotate (rotationValue wrist.x)] ++ (fistStep folded st).1 ++
        (if folded = false ∧ wrist.y < 3 / 10 then [Cmd.water (1 / 50)] else [])
        ++ zoomCommands thumbTip indexTip := by
  unfold gestureCycle at hok
  split at hok
  · simp at hok
  · rename_i wrist h0
    split at hok
    · simp at hok
    · rename_i folded hfl
      split at hok
      · rename_i thumbTip indexTip h4 h8
        simp only [Except.ok.injEq, Prod.mk.injEq] at hok
        exact ⟨wrist, folded, thumbTip, indexTip, h0, hfl, h4, h8,
          hok.2.symm, hok.1.symm⟩
      · simp at hok

/-- C4: the emitted rotation speed is 0 whenever the wrist x offset from
the center 0.5 is at most the 0.1 dead-zone, and otherwise equals
(0.5 - x) * 4; x = 0.7 yields -0.8; and a successful gesture cycle's
first emitted command is exactly this rotation speed. -/
theorem rotation_dead_zone (x : ℚ) :
    (abs (x - 1 / 2) ≤ 1 / 10 → rotationValue x = 0) ∧
    (1 / 10 < abs (x - 1 / 2) → rotationValue x = (1 / 2 - x) * 4) ∧
    rotationValue (7 / 10) = -(4 / 5) ∧
    (∀ lms st cmds st' wrist, getL lms 0 = Except.ok wrist →
      gestureCycle lms st = Except.ok (cmds, st') →
      cmds.head? = some (Cmd.rotate (rotationValue wrist.x))) := by
  refine ⟨?_, ?_, ?_, ?_⟩
  · intro h
    unfold rotationValue
    rw [if_neg (not_lt.mpr h)]
  · intro h
    unfold rotationValue
    rw [if_pos h]
  · unfold rotationValue
    rw [if_pos (by rw [lt_abs]; left; norm_num)]
    norm_num
  · intro lms st cmds st' wrist h0 hok
    obtain ⟨w, folded, tt, it, hw, _, _, _, _, hcmds⟩ :=
      gestureCycle_ok_inv lms st cmds st' hok
    rw [h0] at hw
    obtain rfl : wrist = w := by
      simpa using hw
    simp [hcmds]

/-- Witness for C4: x = 0.7 is outside the dead-zone and maps linearly;
x = 0.55 is inside the dead-zone and maps to zero. -/
theorem rotation_dead_zone_witness :
    rotationValue (7 / 10) = (1 / 2 - 7 / 10) * 4 ∧ rotationValue (11 / 20) = 0 :=
  ⟨(rotation_dead_zone (7 / 10)).2.1 (by rw [lt_abs]; left; norm_num),
   (rotation_dead_zone (11 / 20)).1 (by rw [abs_le]; constructor <;> norm_num)⟩

/-- C8 (throttle modelled from the spec): the first call fires
immediately; a call within T ms of the last accepted call is dropped with
the stored timestamp unchanged (nothing queued); with a 200 ms window,
calls at t = 0, 50, 250 fire at 0 and 250 only; and the per-gesture
cooldowns are 200 ms (grab/release), 300 ms (magic), 500 ms (wind). -/
theorem throttle_behavior (T l t : ℚ) (rest : List ℚ) :
    (throttleRun T none (t :: rest)).head? = some t ∧
    (t - l < T → throttleStep T (some l) t = (false, some l)) ∧
    throttleRun 200 none [0, 50, 250] = [0, 250] ∧
    THROTTLE_MS.grab = 200 ∧ THROTTLE_MS.magic = 300 ∧ THROTTLE_MS.wind = 500 := by
  refine ⟨?_, ?_, ?_, rfl, rfl, rfl⟩
  · simp [throttleRun, throttleStep]
  · intro h; simp [throttleStep, h]
  · norm_num [throttleRun, throttleStep]

/-- Witness for C8: a call 50 ms after an accepted call at 0 is dropped
under a 200 ms window. -/
theorem throttle_behavior_witness :
    throttleStep 200 (some 0) 50 = (false, some 0) :=
  (throttle_behavior 200 0 50 []).2.1 (by norm_num)

/-- One zoom application preserves the camera-distance bounds. -/
theorem animateZoomStep_bounds (z d : ℚ) (h2 : 2 ≤ z) (h12 : z ≤ 12) :
    2 ≤ animateZoomStep z d ∧ animateZoomStep z d ≤ 12 := by
  unfold animateZoomStep
  split
  · exact ⟨le_max_left _ _, max_le (by norm_num) (min_le_left _ _)⟩
  · exact ⟨h2, h12⟩

/-- Any run of zoom applications preserves the camera-distance bounds. -/
theorem runZoom_bounds (ds : List ℚ) : ∀ z : ℚ, 2 ≤ z → z ≤ 12 →
    2 ≤ runZoom z ds ∧ runZoom z ds ≤ 12 := by
  induction ds with
  | nil => intro z h2 h12; simpa [runZoom] using ⟨h2, h12⟩
  | cons d l ih =>
    intro z h2 h12
    have h := animateZoomStep_bounds z d h2 h12
    simpa [runZoom] using ih (animateZoomStep z d) h.1 h.2

/-- C10: starting from the initial camera z position 7, the camera z stays
inside [2, 12] after every sequence of zoom deltas, each application being
clamped by the scene consumer, and 7 itself lies inside the interval. -/
theorem camera_z_clamped (ds : List ℚ) :
    2 ≤ runZoom INITIAL_CAMERA_Z ds ∧ runZoom INITIAL_CAMERA_Z ds ≤ 12 ∧
    2 ≤ INITIAL_CAMERA_Z ∧ INITIAL_CAMERA_Z ≤ 12 := by
  have h := runZoom_bounds ds INITIAL_CAMERA_Z (by norm_num [INITIAL_CAMERA_Z])
    (by norm_num [INITIAL_CAMERA_Z])
  exact ⟨h.1, h.2, by norm_num [INITIAL_CAMERA_Z], by norm_num [INITIAL_CAMERA_Z]⟩

/-- C2: over four hand-present cycles whose pinch flags are false, true,
true, false (starting with the stored previous pinch flag clear), the
grab trigger fires exactly at cycle 2 and the release trigger exactly at
cycle 4; and any cycle whose frame flags equal the stored previous-cycle
flags fires no rising or falling edge trigger for pinch, fist or peace. -/
theorem pinch_edge_events (s : TrackerState) (t1 t2 t3 t4 : ℚ)
    (f1 f2 f3 f4 : HandFrame)
    (h0 : s.prevPinch = false) (h1 : f1.pinch = false) (h2 : f2.pinch = true)
    (h3 : f3.pinch = true) (h4 : f4.pinch = false) :
    ((runCycles s
        [(t1, some f1), (t2, some f2), (t3, some f3), (t4, some f4)]).2.map
      (fun o => (o.grab, o.release))) =
      [(false, false), (true, false), (false, false), (false, true)] ∧
    (∀ s' t f, f.pinch = s'.prevPinch → f.fist = s'.prevFist →
      f.peace = s'.prevPeace →
      (predictTick s' t (some f)).2.grab = false ∧
      (predictTick s' t (some f)).2.release = false ∧
      (predictTick s' t (some f)).2.magic = false ∧
      (predictTick s' t (some f)).2.wind = false) := by
  constructor
  · simp [runCycles, predictTick, h0, h1, h2, h3, h4]
  · intro s' t f hp hf hpe
    simp [predictTick, hp, hf, hpe]

/-- Witness for C2: a concrete off-on-on-off pinch sequence. -/
theorem pinch_edge_events_witness :
    ((runCycles ⟨false, false, false, false, 0⟩
        [(0, some frOff), (10, some frOn), (20, some frOn),
          (30, some frOff)]).2.map (fun o => (o.grab, o.release))) =
      [(false, false), (true, false), (false, false), (false, true)] :=
  (pinch_edge_events ⟨false, false, false, false, 0⟩ 0 10 20 30
    frOff frOn frOn frOff rfl rfl rfl rfl rfl).1

/-- An absent-hand cycle with presence already cleared changes nothing. -/
theorem predictTick_absent_stays (s : TrackerState) (t : ℚ)
    (h : s.handPresent = false) :
    predictTick s t none = (s, ⟨false, false, false, false, none⟩) := by
  simp [predictTick, h]

/-- After presence is cleared, an absent run emits nothing at all. -/
theorem runCycles_absent_cleared (s : TrackerState) (ts : List ℚ)
    (h : s.handPresent = false) :
    runCycles s (ts.map (fun t => (t, none))) =
      (s, ts.map (fun _ => ⟨false, false, false, false, none⟩)) := by
  induction ts with
  | nil => simp [runCycles]
  | cons a l ih => simp [runCycles, predictTick_absent_stays s a h, ih]

/-- C3 (amended: the source compares the gap strictly, so emission needs a
gap strictly greater than 150 ms, not one merely reaching 150 ms): over an
all-absent run starting with the hand present, exactly one neutral frame
is emitted when some cycle observes a gap strictly above
HAND_LOST_TIMEOUT_MS and none otherwise; no absent cycle fires any
grab/release/magic/wind trigger (in particular no pinch falling edge); and
when the timeout fires, the final state has all three previous-cycle
gesture flags reset to false and presence cleared. -/
theorem hand_lost_timeout_amended (s : TrackerState) (ts : List ℚ)
    (hp : s.handPresent = true) :
    countNeutral ((runCycles s (ts.map (fun t => (t, none)))).2) =
      (if ts.any (fun t => decide (HAND_LOST_TIMEOUT_MS < t - s.lastHandSeen))
          = true then 1 else 0) ∧
    (∀ o ∈ (runCycles s (ts.map (fun t => (t, none)))).2,
      o.grab = false ∧ o.release = false ∧ o.magic = false ∧ o.wind = false) ∧
    (ts.any (fun t => decide (HAND_LOST_TIMEOUT_MS < t - s.lastHandSeen))
        = true →
      ((runCycles s (ts.map (fun t => (t, none)))).1).prevPinch = false ∧
      ((runCycles s (ts.map (fun t => (t, none)))).1).prevFist = false ∧
      ((runCycles s (ts.map (fun t => (t, none)))).1).prevPeace = false ∧
      ((runCycles s (ts.map (fun t => (t, none)))).1).handPresent = false) := by
  induction ts with
  | nil =>
    exact ⟨by simp [runCycles, countNeutral], by simp [runCycles], by simp⟩
  | cons a l ih =>
    obtain ⟨ihc, ihe, ihs⟩ := ih
    by_cases hgt : HAND_LOST_TIMEOUT_MS < a - s.lastHandSeen
    · have hstep : predictTick s a none =
          (⟨false, false, false, false, s.lastHandSeen⟩,
           ⟨false, false, false, false, some NEUTRAL_FRAME⟩) := by
        simp [predictTick, hp, hgt]
      have hrest := runCycles_absent_cleared
        ⟨false, false, false, false, s.lastHandSeen⟩ l rfl
      refine ⟨?_, ?_, ?_⟩
      · simp [runCycles, hstep, hrest, countNeutral, hgt, List.filter_map]
      · intro o ho
        simp only [runCycles, hstep, hrest, List.mem_cons] at ho
        rcases ho with ho | ho
        · simp [ho]
        · obtain ⟨t, _, rfl⟩ := List.mem_map.mp ho
          exact ⟨rfl, rfl, rfl, rfl⟩
      · intro _
        simp [runCycles, hstep, hrest]
    · have hstep : predictTick s a none = (s, ⟨false, false, false, false, none⟩) := by
        simp [predictTick, hgt]
      refine ⟨?_, ?_, ?_⟩
      · simp [runCycles, hstep, countNeutral, List.any_cons, hgt] at ihc ⊢
        exact ihc
      · intro o ho
        simp only [runCycles, hstep, List.mem_cons] at ho
        rcases ho with ho | ho
        · simp [ho]
        · exact ihe o ho
      · intro hany
        simp only [List.any_cons, Bool.or_eq_true, decide_eq_true_eq] at hany
        rcases hany with hany | hany
        · exact absurd hany hgt
        · have := ihs hany
          simpa [runCycles, hstep] using this

/-- Witness for C3 (amended) on a run whose second absent cycle exceeds
the timeout. -/
theorem hand_lost_timeout_amended_witness :
    countNeutral ((runCycles ⟨true, true, true, true, 0⟩
        (([100, 151, 300] : List ℚ).map (fun t => (t, none)))).2) =
      (if ([100, 151, 300] : List ℚ).any
          (fun t => decide (HAND_LOST_TIMEOUT_MS <
            t - (⟨true, true, true, true, 0⟩ : TrackerState).lastHandSeen))
          = true then 1 else 0) :=
  (hand_lost_timeout_amended ⟨true, true, true, true, 0⟩ [100, 151, 300] rfl).1

/-- C3 counterexample: the hand was last seen at t = 0 and the single
absent cycle happens at exactly t = 150, so the observed gap has reached
HAND_LOST_TIMEOUT_MS; the claim demands one neutral-frame emission, but
the source tests the gap with a strict inequality and emits nothing. -/
theorem hand_lost_boundary_counterexample :
    countNeutral ((runCycles ⟨true, false, false, true, 0⟩ [(150, none)]).2) = 0 ∧
    HAND_LOST_TIMEOUT_MS ≤ 150 - (0 : ℚ) := by
  constructor
  · have hstep : predictTick ⟨true, false, false, true, 0⟩ 150 none =
        (⟨true, false, false, true, 0⟩, ⟨false, false, false, false, none⟩) := by
      simp [predictTick, HAND_LOST_TIMEOUT_MS]
    simp [runCycles, hstep, countNeutral]
  · norm_num [HAND_LOST_TIMEOUT_MS]

/-- The fist latch never emits zoom commands. -/
theorem fistStep_no_zoom (folded : Bool) (st : FistLatch) :
    ((fistStep folded st).1).filter isZoomCmd = [] := by
  obtain ⟨i, f⟩ := st
  cases folded <;> cases i <;> cases f <;> simp [fistStep, isZoomCmd]

/-- Zoom commands are exactly the zoom-filtered part of themselves. -/
theorem zoomCommands_filter (t i : Landmark) :
    (zoomCommands t i).filter isZoomCmd = zoomCommands t i := by
  unfold zoomCommands
  split
  · simp [isZoomCmd]
  · split
    · simp [isZoomCmd]
    · simp

/-- C7: in a successful cycle, a thumb-index squared distance below the
tight threshold (0.05 squared) emits exactly one zoom-in impulse +0.1, one
above the wide threshold (0.15 squared) emits exactly one zoom-out impulse
-0.1, a distance in the closed gap emits no zoom command at all, and a
cycle never emits more than one zoom command. -/
theorem zoom_threshold_commands (lms : List Landmark) (st : FistLatch)
    (cmds : List Cmd) (st' : FistLatch) (thumbTip indexTip : Landmark)
    (hok : gestureCycle lms st = Except.ok (cmds, st'))
    (h4 : getL lms 4 = Except.ok thumbTip)
    (h8 : getL lms 8 = Except.ok indexTip) :
    (distSq thumbTip indexTip < 1 / 400 →
      cmds.filter isZoomCmd = [Cmd.zoom (1 / 10)]) ∧
    (9 / 400 < distSq thumbTip indexTip →
      cmds.filter isZoomCmd = [Cmd.zoom (-(1 / 10))]) ∧
    (1 / 400 ≤ distSq thumbTip indexTip → distSq thumbTip indexTip ≤ 9 / 400 →
      cmds.filter isZoomCmd = []) ∧
    (cmds.filter isZoomCmd).length ≤ 1 := by
  obtain ⟨w, folded, tt, it, hw, hfl, h4', h8', hst, hcmds⟩ :=
    gestureCycle_ok_inv lms st cmds st' hok
  rw [h4] at h4'
  rw [h8] at h8'
  have htt : thumbTip = tt := Except.ok.inj h4'
  have hit : indexTip = it := Except.ok.inj h8'
  subst htt
  subst hit
  have hfilter : cmds.filter isZoomCmd = zoomCommands thumbTip indexTip := by
    rw [hcmds, List.filter_append, List.filter_append, List.filter_append]
    have hrot : ([Cmd.rotate (rotationValue w.x)].filter isZoomCmd) = [] := by
      simp [isZoomCmd]
    have hwat : ((if folded = false ∧ w.y < 3 / 10 then [Cmd.water (1 / 50)]
        else []).filter isZoomCmd) = [] := by
      split <;> simp [isZoomCmd]
    rw [hrot, fistStep_no_zoom, hwat, zoomCommands_filter]
    simp
  refine ⟨?_, ?_, ?_, ?_⟩
  · intro h
    rw [hfilter]
    unfold zoomCommands
    rw [if_pos h]
  · intro h
    rw [hfilter]
    unfold zoomCommands
    rw [if_neg (not_lt.mpr (le_of_lt
      (lt_of_le_of_lt (show (1 : ℚ) / 400 ≤ 9 / 400 by norm_num) h))), if_pos h]
  · intro hge hle
    rw [hfilter]
    unfold zoomCommands
    rw [if_neg (not_lt.mpr hge), if_neg (not_lt.mpr hle)]
  · rw [hfilter]
    unfold zoomCommands
    split
    · simp
    · split <;> simp

/-- Evaluation of the gesture cycle on the dead-gap hand: folded is false
because the index finger tests extended, the wrist at the origin gives
rotation 2 and watering, and the gap distance 0.1 emits no zoom. -/
theorem gapHand_cycle :
    gestureCycle gapHand ⟨false, false⟩ =
      Except.ok ([Cmd.rotate 2, Cmd.water (1 / 50)], ⟨false, false⟩) := by
  have hw : getL gapHand 0 = Except.ok ⟨0, 0⟩ := rfl
  have h4 : getL gapHand 4 = Except.ok ⟨0, 0⟩ := rfl
  have h8 : getL gapHand 8 = Except.ok ⟨1 / 10, 0⟩ := rfl
  have h6 : getL gapHand 6 = Except.ok ⟨0, 0⟩ := rfl
  have hext : isFingerExtended ⟨1 / 10, 0⟩ ⟨0, 0⟩ ⟨0, 0⟩ = true := by
    simp only [isFingerExtended, distSq, decide_eq_true_eq]
    norm_num
  have hfold : foldedLoop gapHand ⟨0, 0⟩ fingerPairs = Except.ok false := by
    simp only [fingerPairs, foldedLoop, h8, h6, hext, if_true]
  have hrot : rotationValue 0 = 2 := by
    unfold rotationValue
    rw [if_pos (by rw [lt_abs]; right; norm_num)]
    norm_num
  have hzoom : zoomCommands ⟨0, 0⟩ ⟨1 / 10, 0⟩ = [] := by
    unfold zoomCommands
    rw [if_neg (by norm_num [distSq]), if_neg (by norm_num [distSq])]
  have hfs : fistStep false (⟨false, false⟩ : FistLatch) = ([], ⟨false, false⟩) :=
    rfl
  simp only [gestureCycle, hw, hfold, h4, h8, hzoom, hrot, hfs]
  split
  · rfl
  · rename_i hcond
    exact absurd ⟨trivial, by norm_num⟩ hcond

/-- Witness for C7: the dead-gap hand emits no zoom command. -/
theorem zoom_threshold_commands_witness :
    (([Cmd.rotate 2, Cmd.water (1 / 50)] : List Cmd).filter isZoomCmd) = [] :=
  (zoom_threshold_commands gapHand ⟨false, false⟩
      [Cmd.rotate 2, Cmd.water (1 / 50)] ⟨false, false⟩ ⟨0, 0⟩ ⟨1 / 10, 0⟩
      gapHand_cycle rfl rfl).2.2.1
    (by norm_num [distSq]) (by norm_num [distSq])

/-- The squared distance from a landmark to itself is zero. -/
theorem distSq_self (p : Landmark) : distSq p p = 0 := by
  simp [distSq]

/-- A finger whose tip, PIP and wrist coincide never tests extended. -/
theorem isFingerExtended_self (p : Landmark) :
    isFingerExtended p p p = false := by
  simp [isFingerExtended, distSq_self]

/-- Landmark access inside a replicated hand. -/
theorem replicate_getL (p : Landmark) (n i : Nat) (h : i < n) :
    getL (List.replicate n p) i = Except.ok p := by
  unfold getL
  rw [List.get?_eq_getElem?, List.getElem?_replicate, if_pos h]

/-- On a hand whose 21 landmarks coincide, every finger tests folded. -/
theorem uniform_foldedLoop (p : Landmark) :
    foldedLoop (List.replicate 21 p) p fingerPairs = Except.ok true := by
  have h6 := replicate_getL p 21 6 (by norm_num)
  have h8 := replicate_getL p 21 8 (by norm_num)
  have h10 := replicate_getL p 21 10 (by norm_num)
  have h12 := replicate_getL p 21 12 (by norm_num)
  have h14 := replicate_getL p 21 14 (by norm_num)
  have h16 := replicate_getL p 21 16 (by norm_num)
  have h18 := replicate_getL p 21 18 (by norm_num)
  have h20 := replicate_getL p 21 20 (by norm_num)
  simp only [fingerPairs, foldedLoop, h6, h8, h10, h12, h14, h16, h18, h20,
    isFingerExtended_self, Bool.false_eq_true, if_false]

/-- The fist flag of a coincident 21-landmark hand is true. -/
theorem fingersFolded_uniform (p : Landmark) :
    fingersFolded (List.replicate 21 p) = Except.ok true := by
  have h0 := replicate_getL p 21 0 (by norm_num)
  simp only [fingersFolded, h0, uniform_foldedLoop]

/-- Full cycle on a coincident 21-landmark hand: rotation from the wrist x
is emitted first, the fist latch runs with the flag true (no watering),
and the zero pinch distance emits the zoom-in impulse. -/
theorem uniformHand_cycle (p : Landmark) (st : FistLatch) :
    gestureCycle (List.replicate 21 p) st =
      Except.ok ([Cmd.rotate (rotationValue p.x)] ++ (fistStep true st).1 ++
        [Cmd.zoom (1 / 10)], (fistStep true st).2) := by
  have h0 := replicate_getL p 21 0 (by norm_num)
  have h4 := replicate_getL p 21 4 (by norm_num)
  have h8 := replicate_getL p 21 8 (by norm_num)
  have hzoom : zoomCommands p p = [Cmd.zoom (1 / 10)] := by
    unfold zoomCommands
    rw [distSq_self, if_pos (by norm_num)]
  simp only [gestureCycle, h0, uniform_foldedLoop, h4, h8, hzoom]
  split
  · rename_i hcond
    simp at hcond
  · simp

/-- C5 (code-bug evidence): on a fist-posed hand (all landmarks coincide
at x = 0.2, y = 0.8, so the fist flag is true), the cycle still emits a
nonzero rotation command (0.5 - 0.2) * 4 = 1.2 to the scene before the
fist is even examined; the fist does not lock rotation to zero, it only
toggles the theme. -/
theorem fist_cycle_still_emits_rotation :
    fingersFolded fistHandLow = Except.ok true ∧
    gestureCycle fistHandLow ⟨false, false⟩ =
      Except.ok ([Cmd.rotate (6 / 5), Cmd.toggleTheme, Cmd.zoom (1 / 10)],
        ⟨true, true⟩) ∧
    (6 : ℚ) / 5 ≠ 0 := by
  refine ⟨fingersFolded_uniform _, ?_, by norm_num⟩
  unfold fistHandLow
  rw [uniformHand_cycle]
  have hrot : rotationValue (1 / 5) = 6 / 5 := by
    unfold rotationValue
    rw [if_pos (by rw [lt_abs]; right; norm_num)]
    norm_num
  have hfs : fistStep true (⟨false, false⟩ : FistLatch) =
      ([Cmd.toggleTheme], ⟨true, true⟩) := rfl
  simp only [hfs, hrot]
  rfl

/-- C6 (code-bug evidence): a fist posed in the lower half of the screen
(wrist y = 0.9 ≥ 0.5, all landmarks coincident at (0.45, 0.9)) still
fires the TOGGLE_THEME command on its rising edge; the theme command is
emitted from the lower half exactly as from the upper half, with no
rotation-lock behaviour in its place. -/
theorem fist_lower_half_toggles_theme :
    1 / 2 ≤ (lmAt fistHandLower 0).y ∧
    fingersFolded fistHandLower = Except.ok true ∧
    gestureCycle fistHandLower ⟨false, false⟩ =
      Except.ok ([Cmd.rotate 0, Cmd.toggleTheme, Cmd.zoom (1 / 10)],
        ⟨true, true⟩) := by
  refine ⟨?_, fingersFolded_uniform _, ?_⟩
  · have hy : lmAt fistHandLower 0 = ⟨9 / 20, 9 / 10⟩ := rfl
    rw [hy]
    norm_num
  · unfold fistHandLower
    rw [uniformHand_cycle]
    have hrot : rotationValue (9 / 20) = 0 := by
      unfold rotationValue
      rw [if_neg (not_lt.mpr (by rw [abs_le]; constructor <;> norm_num))]
    have hfs : fistStep true (⟨false, false⟩ : FistLatch) =
        ([Cmd.toggleTheme], ⟨true, true⟩) := rfl
    simp only [hfs, hrot]
    rfl

/-- C9 (code-bug evidence): a malformed 5-point landmark set passes the
hand-detected guard (which only checks that a hand result exists), emits
the rotation command computed from its wrist, and then crashes on the
missing landmark 8 (undefined property access) instead of being treated
like an absent hand; the classifier is not total on short input. -/
theorem short_landmark_crash :
    shortHand.length < 21 ∧
    gestureCycle shortHand ⟨false, false⟩ = Except.error [Cmd.rotate 0] := by
  constructor
  · decide
  · have h0 : getL shortHand 0 = Except.ok ⟨1 / 2, 1 / 2⟩ := rfl
    have h8 : getL shortHand 8 = Except.error () := rfl
    have hfold : foldedLoop shortHand ⟨1 / 2, 1 / 2⟩ fingerPairs =
        Except.error () := by
      simp only [fingerPairs, foldedLoop, h8]
    have hrot : rotationValue (1 / 2) = 0 := by
      unfold rotationValue
      rw [if_neg (not_lt.mpr (by rw [abs_le]; constructor <;> norm_num))]
    simp only [gestureCycle, h0, hfold, hrot]
